import Mathlib

/-!
Shallow embedding of `src/extensions/amp-subscriptions/0.1/deferred-account-flow.js`
(class `DeferredAccountFlow`), the deferred account reconciliation flow.

The JavaScript promise chains are deterministic once the behaviour of the
external collaborators (durable key-value store, URL builder, transport
client, consent UI) is fixed, so each method is embedded as a pure function
from a collaborator environment `Env` to the settlement of the promise it
returns (`Except String α`, `.error` for rejection) together with the list of
collaborator invocations (`Event`s) it performs.  Continuations that the
source attaches to a promise without returning it ("fire and forget") are
kept in a separate `detached` event list: those invocations are not awaited
by the settlement of the enclosing promise.
-/

namespace AmpDeferredAccount

/-- JavaScript values that flow through this code: `undefined` and booleans
(the stored cache values, `jsonResult.found`, and the consent decision are
the only dynamic values the flow inspects). -/
inductive JsVal
  | undef
  | bool (b : Bool)
deriving DecidableEq

/-- JavaScript truthiness for the values of `JsVal`, as used by
`if (rejected)` and `if (jsonResult.found)` in the source. -/
def truthy : JsVal → Bool
  | .undef => false
  | .bool b => b

/-- Base64 alphabet (RFC 4648), as used by the JS `btoa` builtin. -/
def base64Alphabet : List Char :=
  "ABCDEFGHIJKLMNOPQRSTUVWXYZabcdefghijklmnopqrstuvwxyz0123456789+/".data

/-- Character of the base64 alphabet at index `n`. -/
def b64Char (n : Nat) : Char := base64Alphabet.getD n 'A'

/-- Base64 encoding of a byte list, three input bytes to four output
characters, `=`-padded, as produced by the JS `btoa` builtin. -/
def b64Encode : List Nat → List Char
  | [] => []
  | [b0] =>
      [b64Char (b0 / 4), b64Char (b0 % 4 * 16), '=', '=']
  | [b0, b1] =>
      [b64Char (b0 / 4), b64Char (b0 % 4 * 16 + b1 / 16), b64Char (b1 % 16 * 4), '=']
  | b0 :: b1 :: b2 :: rest =>
      b64Char (b0 / 4) :: b64Char (b0 % 4 * 16 + b1 / 16) ::
        b64Char (b1 % 16 * 4 + b2 / 64) :: b64Char (b2 % 64) :: b64Encode rest

/-- JS `btoa`: base64 of the code units of a (Latin-1) string.  The strings
passed to it in this development are ASCII, where `Char.toNat` is exactly the
code unit. -/
def btoa (s : String) : String := String.mk (b64Encode (s.data.map Char.toNat))

/-- JS `ToIndex(ToNumber(s))` for a string `s`, as applied by the
`ArrayBuffer` constructor to a string argument: a string that is not a
numeric literal converts to NaN and `ToIndex NaN = 0`.  Modelled for the
strings that can reach it here (base64 output): only plain decimal-digit
strings denote numbers. -/
def jsToIndex (s : String) : Nat := (s.toNat?).getD 0

/-- An entitlement, as seen by this flow: the flow only ever uses
`JSON.stringify(entitlements.json())` (field `jsonStr`; `json()` returns a
plain object, so the serialization starts with `{`) and
`stringifyForPingback(entitlements)` (field `pingback`). -/
structure Entitlement where
  jsonStr : String
  pingback : String
deriving DecidableEq

/-- Parsed body of the existence-check response: the flow reads only the
`found` property (`undefined` when the property is missing). -/
structure JsonResult where
  found : JsVal
deriving DecidableEq

/-- A transport response: `json()` yields the parsed body or rejects. -/
structure Response where
  json : Except String JsonResult

/-- The durable key-value store (`Services.storageForDoc` result):
`get` resolves with the stored value, with `undefined` (`JsVal.undef`) for
an absent key, or rejects; `set` resolves or rejects. -/
structure Store where
  get : String → Except String JsVal
  set : String → JsVal → Except String Unit

/-- Behaviour of the external collaborators during one run: `storage` is the
settlement of the `this.storage_` promise itself, `buildUrl` of
`urlBuilder_.buildUrl(url, true)`, `fetchJson` of `xhr_.fetchJson(url, body)`
(the body being the pingback serialization), `consent` of
`platform_.consentDeferredAccountCreation()`. -/
structure Env where
  storage : Except String Store
  buildUrl : Option String → Except String String
  fetchJson : String → String → Except String Response
  consent : Except String Bool

/-- One collaborator invocation, recorded in execution order. -/
inductive Event
  | storageGet (key : String)
  | storageSet (key : String) (value : JsVal)
  | buildUrl (url : Option String)
  | fetch (url : String) (body : String)
  | consent
  | navigate (url : Option String)
deriving DecidableEq

/-- Constructor state of a `DeferredAccountFlow`: the two URLs, already
normalized by `url || null` (`none` for a missing/empty argument). -/
structure Flow where
  hasAssociatedAccountUrl : Option String
  accountCreationRedirectUrl : Option String
deriving DecidableEq

/-- JS `s || null` on a string argument: the empty string is falsy and
becomes `null`. -/
def orNull (s : String) : Option String := if s = "" then none else some s

/-- Constructor of `DeferredAccountFlow` restricted to the state the methods
read: stores `hasAssociatedAccountUrl || null` and
`accountCreationRedirectUrl || null`. -/
def init (hasAssociatedAccountUrl accountCreationRedirectUrl : String) : Flow :=
  ⟨orNull hasAssociatedAccountUrl, orNull accountCreationRedirectUrl⟩

/-- Value of `LOCAL_STORAGE_KEYS.HAS_PUBLISHER_ACCOUNT`. -/
def HAS_PUBLISHER_ACCOUNT : String := "account-exists-on-publisher-side"

/-- Value of `LOCAL_STORAGE_KEYS.HAS_REJECTED_ACCOUNT_CREATION`. -/
def HAS_REJECTED_ACCOUNT_CREATION : String := "user-rejected-account-creation-request"

/-- Truthiness of `isDeferredAccountCreationEnabled()`: the source returns
`this.hasAssociatedAccountUrl_ && this.accountCreationRedirectUrl_`, a value
that is truthy exactly when both URLs are non-null. -/
def isDeferredAccountCreationEnabled (f : Flow) : Bool :=
  f.hasAssociatedAccountUrl.isSome && f.accountCreationRedirectUrl.isSome

/-- JS `ToString` of an `ArrayBuffer` value, as applied by `btoa` to the
non-string argument `hash` in `getStorageKey_`. -/
def arrayBufferStringTag : String := "[object ArrayBuffer]"

/-- Byte length of `new ArrayBuffer(btoa(JSON.stringify(entitlements.json())))`
in `getStorageKey_`: the `ArrayBuffer` constructor coerces the base64 string
with `ToIndex`.  For a JSON object serialization (starting with `{`, first
base64 character `e`) this is `ToIndex NaN = 0`: the digested buffer is
empty and carries nothing of the entitlement. -/
def arrayBufferLength (entitlements : Entitlement) : Nat :=
  jsToIndex (btoa entitlements.jsonStr)

set_option linter.unusedVariables false

/-- Embedding of `getStorageKey_(storageKey, entitlements)`.  The source builds
`new ArrayBuffer(btoa(JSON.stringify(entitlements.json())))` (an empty
buffer, see `arrayBufferLength`), digests it with SHA-256 — the digest
promise resolves with an `ArrayBuffer` — and returns
`` `${storageKey}_${btoa(hash)}` ``.  `btoa` coerces the `ArrayBuffer`
argument `hash` with `ToString` to `"[object ArrayBuffer]"`, so the suffix
is the base64 of that tag string, independent of the digest bytes and hence
of the entitlement. -/
def getStorageKey_ (storageKey : String) (entitlements : Entitlement) : String :=
  storageKey ++ "_" ++ btoa arrayBufferStringTag

deriving instance DecidableEq for Except

/-- Embedding of `getStorageData_(storageKey, entitlements)`: derives the key, then
`this.storage_.then((s) => s.get(key)).catch(() => undefined)` — the catch
covers both a rejection of the storage promise itself and a rejection of
`get`, so the read settles `ok` in every case. -/
def getStorageData_ (env : Env) (storageKey : String) (entitlements : Entitlement) :
    Except String JsVal × List Event :=
  match env.storage with
  | Except.error _ => (Except.ok JsVal.undef, [])
  | Except.ok s =>
    match s.get (getStorageKey_ storageKey entitlements) with
    | Except.error _ =>
        (Except.ok JsVal.undef, [Event.storageGet (getStorageKey_ storageKey entitlements)])
    | Except.ok v => (Except.ok v, [Event.storageGet (getStorageKey_ storageKey entitlements)])

/-- Embedding of `setStorageData_(storageKey, entitlements, value)`: derives the key, then
`this.storage_.then((s) => s.set(key, value).catch(() => {}))` — the catch is
attached to `s.set(...)` only, inside the `then` callback, so a rejection of
`set` is swallowed but a rejection of the storage promise itself propagates
out of `setStorageData_`. -/
def setStorageData_ (env : Env) (storageKey : String) (entitlements : Entitlement)
    (value : JsVal) : Except String Unit × List Event :=
  match env.storage with
  | Except.error m => (Except.error m, [])
  | Except.ok s =>
    match s.set (getStorageKey_ storageKey entitlements) value with
    | Except.error _ =>
        (Except.ok (), [Event.storageSet (getStorageKey_ storageKey entitlements) value])
    | Except.ok _ =>
        (Except.ok (), [Event.storageSet (getStorageKey_ storageKey entitlements) value])

/-- Embedding of `hasAssociatedUserAccount_(entitlements)`: reads the cache under
`HAS_PUBLISHER_ACCOUNT`; on a present value returns `{found: value}`;
otherwise builds the authenticated URL from `this.hasAssociatedAccountUrl_`,
POSTs the pingback serialization, parses the JSON body, schedules the
write-back `setStorageData_(HAS_PUBLISHER_ACCOUNT, entitlements, found)`
without returning it (its events are the second, detached list and its
settlement is dropped), and resolves with the parsed result.  Any rejection
of the URL build, the fetch or the body parse propagates. -/
def hasAssociatedUserAccount_ (env : Env) (f : Flow) (entitlements : Entitlement) :
    Except String JsonResult × List Event × List Event :=
  match getStorageData_ env HAS_PUBLISHER_ACCOUNT entitlements with
  | (Except.error m, t1) => (Except.error m, t1, [])
  | (Except.ok v, t1) =>
    if v ≠ JsVal.undef then
      (Except.ok ⟨v⟩, t1, [])
    else
      match env.buildUrl f.hasAssociatedAccountUrl with
      | Except.error m =>
          (Except.error m, t1 ++ [Event.buildUrl f.hasAssociatedAccountUrl], [])
      | Except.ok url =>
        match env.fetchJson url entitlements.pingback with
        | Except.error m =>
            (Except.error m,
              t1 ++ [Event.buildUrl f.hasAssociatedAccountUrl,
                Event.fetch url entitlements.pingback], [])
        | Except.ok resp =>
          match resp.json with
          | Except.error m =>
              (Except.error m,
                t1 ++ [Event.buildUrl f.hasAssociatedAccountUrl,
                  Event.fetch url entitlements.pingback], [])
          | Except.ok jr =>
              match setStorageData_ env HAS_PUBLISHER_ACCOUNT entitlements jr.found with
              | (_, tw) =>
                (Except.ok jr,
                  t1 ++ [Event.buildUrl f.hasAssociatedAccountUrl,
                    Event.fetch url entitlements.pingback], tw)

/-- Outcome of `run`: the settlement of the returned promise, the
collaborator invocations sequenced before that settlement (`pre`), and the
invocations of fire-and-forget chains the promise does not await
(`detached`). -/
structure RunOutcome where
  result : Except String Unit
  pre : List Event
  detached : List Event
deriving DecidableEq

/-- Embedding of `run(entitlements)`: reads the cached rejection flag; if truthy, resolves.
Otherwise awaits `hasAssociatedUserAccount_`; if `found` is truthy, resolves.
Otherwise it calls `platform_.consentDeferredAccountCreation()` and attaches
a continuation — without returning that chain, so `run`'s promise resolves
once this callback returns, while the continuation (navigate to
`this.accountCreationRedirectUrl_` on acceptance, write `true` under
`HAS_REJECTED_ACCOUNT_CREATION` on refusal) runs detached. -/
def run (env : Env) (f : Flow) (entitlements : Entitlement) : RunOutcome :=
  match getStorageData_ env HAS_REJECTED_ACCOUNT_CREATION entitlements with
  | (Except.error m, t1) => ⟨Except.error m, t1, []⟩
  | (Except.ok rejected, t1) =>
    if truthy rejected then ⟨Except.ok (), t1, []⟩
    else
      match hasAssociatedUserAccount_ env f entitlements with
      | (Except.error m, p2, a2) => ⟨Except.error m, t1 ++ p2, a2⟩
      | (Except.ok jr, p2, a2) =>
        if truthy jr.found then ⟨Except.ok (), t1 ++ p2, a2⟩
        else
          match env.consent with
          | Except.error _ => ⟨Except.ok (), t1 ++ p2 ++ [Event.consent], a2⟩
          | Except.ok accepted =>
            if accepted then
              ⟨Except.ok (), t1 ++ p2 ++ [Event.consent],
                a2 ++ [Event.navigate f.accountCreationRedirectUrl]⟩
            else
              match setStorageData_ env HAS_REJECTED_ACCOUNT_CREATION entitlements
                  (JsVal.bool true) with
              | (_, ts) => ⟨Except.ok (), t1 ++ p2 ++ [Event.consent], a2 ++ ts⟩

/-! Concrete fixtures used by witnesses and counterexamples. -/

/-- A concrete entitlement (JSON-object serialization, as `json()` yields). -/
def entA : Entitlement := ⟨"\x7b\"service\":\"sub.example\",\"granted\":true\x7d", "pingbackA"⟩

/-- A second concrete entitlement whose canonical serialization differs from
`entA`'s. -/
def entB : Entitlement := ⟨"\x7b\"service\":\"other.example\",\"granted\":false\x7d", "pingbackB"⟩

/-- A third concrete entitlement, for the key-derivation evaluation. -/
def entC : Entitlement := ⟨"\x7b\"source\":\"x\"\x7d", "pingbackC"⟩

/-- A store with no entries whose operations always succeed. -/
def storeEmpty : Store := ⟨fun _ => Except.ok JsVal.undef, fun _ _ => Except.ok ()⟩

/-- A store holding `true` under the rejection key. -/
def storeRejected : Store :=
  ⟨fun k =>
      if k = getStorageKey_ HAS_REJECTED_ACCOUNT_CREATION entA then
        Except.ok (JsVal.bool true)
      else Except.ok JsVal.undef,
    fun _ _ => Except.ok ()⟩

/-- A store holding `true` under the publisher-account key. -/
def storeHasAccount : Store :=
  ⟨fun k =>
      if k = getStorageKey_ HAS_PUBLISHER_ACCOUNT entA then
        Except.ok (JsVal.bool true)
      else Except.ok JsVal.undef,
    fun _ _ => Except.ok ()⟩

/-- A store whose `get` and `set` both reject. -/
def storeBroken : Store :=
  ⟨fun _ => Except.error "get failed", fun _ _ => Except.error "set failed"⟩

/-- Environment whose storage promise resolves but whose `get` and `set`
operations reject. -/
def envBrokenStore : Env :=
  ⟨Except.ok storeBroken, fun _ => Except.error "mock", fun _ _ => Except.error "mock",
    Except.error "mock"⟩

/-- Environment with working empty storage and all remote collaborators
rejecting. -/
def envStorageOnly : Env :=
  ⟨Except.ok storeEmpty, fun _ => Except.error "mock", fun _ _ => Except.error "mock",
    Except.error "mock"⟩

/-- Environment whose storage promise itself rejects. -/
def envNoStorage : Env :=
  ⟨Except.error "no storage", fun _ => Except.error "mock", fun _ _ => Except.error "mock",
    Except.error "mock"⟩

/-- Environment with empty storage where the network existence check fails. -/
def envFetchFails : Env :=
  ⟨Except.ok storeEmpty, fun _ => Except.ok "https://pub.example/check",
    fun _ _ => Except.error "network down", Except.ok true⟩

/-- Environment with a cached `true` under the publisher-account key. -/
def envCachedAccount : Env :=
  ⟨Except.ok storeHasAccount, fun _ => Except.error "mock", fun _ _ => Except.error "mock",
    Except.error "mock"⟩

/-- Environment with a cached `true` under the rejection key. -/
def envCachedRejection : Env :=
  ⟨Except.ok storeRejected, fun _ => Except.error "mock", fun _ _ => Except.error "mock",
    Except.error "mock"⟩

/-- Environment for a full happy-path run: empty storage, URL build and fetch
succeed, the response parses to `{found: false}`, consent is granted. -/
def envConsentAccepted : Env :=
  ⟨Except.ok storeEmpty, fun _ => Except.ok "https://pub.example/check",
    fun _ _ => Except.ok ⟨Except.ok ⟨JsVal.bool false⟩⟩, Except.ok true⟩

/-- Environment identical to `envConsentAccepted` except that consent is
declined. -/
def envConsentDeclined : Env :=
  ⟨Except.ok storeEmpty, fun _ => Except.ok "https://pub.example/check",
    fun _ _ => Except.ok ⟨Except.ok ⟨JsVal.bool false⟩⟩, Except.ok false⟩

/-- A flow with both URLs configured. -/
def flowConfigured : Flow := init "https://pub.example/has-account" "https://pub.example/create"

/-- A flow constructed with both URLs empty. -/
def flowUnconfigured : Flow := init "" ""

/-! Helper lemmas about the embedded operations. -/

/-- Unfolded form of key derivation: a purpose-dependent, entitlement-independent
string (see `getStorageKey_`). -/
theorem getStorageKey_spec (p : String) (e : Entitlement) :
    getStorageKey_ p e = p ++ "_" ++ btoa arrayBufferStringTag := rfl

/-- Keys for the two purposes never coincide, for any pair of entitlements. -/
theorem storageKeys_ne (e1 e2 : Entitlement) :
    getStorageKey_ HAS_PUBLISHER_ACCOUNT e1 ≠
      getStorageKey_ HAS_REJECTED_ACCOUNT_CREATION e2 := by
  simp only [getStorageKey_]
  decide

/-- The cache read settles `ok` in every environment. -/
theorem getStorageData_ok (env : Env) (p : String) (e : Entitlement) :
    ∃ v, (getStorageData_ env p e).1 = Except.ok v := by
  unfold getStorageData_
  split
  · exact ⟨JsVal.undef, rfl⟩
  · split
    · exact ⟨JsVal.undef, rfl⟩
    · exact ⟨_, rfl⟩

/-- The only event a cache read can record is the `get` on its derived key. -/
theorem getStorageData_events (env : Env) (p : String) (e : Entitlement) :
    ∀ ev ∈ (getStorageData_ env p e).2, ev = Event.storageGet (getStorageKey_ p e) := by
  intro ev hev
  unfold getStorageData_ at hev
  split at hev
  · simp at hev
  · split at hev <;> simpa using hev

/-- The only event a cache write can record is the `set` on its derived key. -/
theorem setStorageData_events (env : Env) (p : String) (e : Entitlement) (v : JsVal) :
    ∀ ev ∈ (setStorageData_ env p e v).2, ev = Event.storageSet (getStorageKey_ p e) v := by
  intro ev hev
  unfold setStorageData_ at hev
  split at hev
  · simp at hev
  · split at hev <;> simpa using hev

/-- Every pre-settlement event of the existence check is a cache `get` on the
publisher-account key, the URL build, or the fetch with the pingback body. -/
theorem hasAccount_pre_events (env : Env) (f : Flow) (e : Entitlement) :
    ∀ ev ∈ (hasAssociatedUserAccount_ env f e).2.1,
      ev = Event.storageGet (getStorageKey_ HAS_PUBLISHER_ACCOUNT e) ∨
      ev = Event.buildUrl f.hasAssociatedAccountUrl ∨
      ∃ u, ev = Event.fetch u e.pingback := by
  intro ev hev
  unfold hasAssociatedUserAccount_ at hev
  split at hev
  next m t1 heq =>
    refine Or.inl (getStorageData_events env _ e ev ?_)
    rw [heq]
    exact hev
  next v t1 heq =>
    have ht1 : ∀ x ∈ t1, x = Event.storageGet (getStorageKey_ HAS_PUBLISHER_ACCOUNT e) := by
      intro x hx
      refine getStorageData_events env _ e x ?_
      rw [heq]
      exact hx
    split at hev
    · exact Or.inl (ht1 ev hev)
    · split at hev
      next m hbu =>
        rcases List.mem_append.mp hev with h | h
        · exact Or.inl (ht1 ev h)
        · exact Or.inr (Or.inl (by simpa using h))
      next url hbu =>
        split at hev
        next m hf =>
          rcases List.mem_append.mp hev with h | h
          · exact Or.inl (ht1 ev h)
          · rcases List.mem_cons.mp h with h' | h'
            · exact Or.inr (Or.inl h')
            · exact Or.inr (Or.inr ⟨url, by simpa using h'⟩)
        next resp hf =>
          split at hev
          next m hj =>
            rcases List.mem_append.mp hev with h | h
            · exact Or.inl (ht1 ev h)
            · rcases List.mem_cons.mp h with h' | h'
              · exact Or.inr (Or.inl h')
              · exact Or.inr (Or.inr ⟨url, by simpa using h'⟩)
          next jr hj =>
            split at hev
            next r tw hw =>
              rcases List.mem_append.mp hev with h | h
              · exact Or.inl (ht1 ev h)
              · rcases List.mem_cons.mp h with h' | h'
                · exact Or.inr (Or.inl h')
                · exact Or.inr (Or.inr ⟨url, by simpa using h'⟩)

/-- Every detached (fire-and-forget) event of the existence check is the
write-back `set` on the publisher-account key. -/
theorem hasAccount_detached_events (env : Env) (f : Flow) (e : Entitlement) :
    ∀ ev ∈ (hasAssociatedUserAccount_ env f e).2.2,
      ∃ w, ev = Event.storageSet (getStorageKey_ HAS_PUBLISHER_ACCOUNT e) w := by
  intro ev hev
  unfold hasAssociatedUserAccount_ at hev
  split at hev
  next m t1 heq => simp at hev
  next v t1 heq =>
    split at hev
    · simp at hev
    · split at hev
      next m hbu => simp at hev
      next url hbu =>
        split at hev
        next m hf => simp at hev
        next resp hf =>
          split at hev
          next m hj => simp at hev
          next jr hj =>
            split at hev
            next r tw hw =>
              refine ⟨jr.found, setStorageData_events env _ e jr.found ev ?_⟩
              rw [hw]
              exact hev

/-- A rejected existence check schedules no detached write-back. -/
theorem hasAccount_error_detached (env : Env) (f : Flow) (e : Entitlement) (m : String)
    (h : (hasAssociatedUserAccount_ env f e).1 = Except.error m) :
    (hasAssociatedUserAccount_ env f e).2.2 = [] := by
  unfold hasAssociatedUserAccount_ at h ⊢
  repeat any_goals split at h
  all_goals simp_all

/-- A cache hit (present value `v`) makes the existence check resolve
`{found: v}` with only the read's events and no detached chain. -/
theorem hasAccount_cached (env : Env) (f : Flow) (e : Entitlement) (v : JsVal)
    (hv : v ≠ JsVal.undef)
    (h : (getStorageData_ env HAS_PUBLISHER_ACCOUNT e).1 = Except.ok v) :
    hasAssociatedUserAccount_ env f e =
      (Except.ok ⟨v⟩, (getStorageData_ env HAS_PUBLISHER_ACCOUNT e).2, []) := by
  unfold hasAssociatedUserAccount_
  split
  next m t1 heq => rw [heq] at h; exact absurd h (by simp)
  next w t1 heq =>
    have hw : w = v := by rw [heq] at h; simpa using h
    subst hw
    rw [if_pos hv, heq]

/-- A cache read that resolves with a present (non-`undefined`) value must
have hit the store, so its trace is exactly the one `get`. -/
theorem getStorageData_hit_trace (env : Env) (p : String) (e : Entitlement) (v : JsVal)
    (hv : v ≠ JsVal.undef)
    (h : (getStorageData_ env p e).1 = Except.ok v) :
    (getStorageData_ env p e).2 = [Event.storageGet (getStorageKey_ p e)] := by
  rcases hs : env.storage with m | s
  · simp [getStorageData_, hs] at h
    exact absurd h.symm hv
  · rcases hg : s.get (getStorageKey_ p e) with m | w <;>
      simp [getStorageData_, hs, hg] at h ⊢

/-- The pre-settlement trace of the existence check is never empty: it
contains the cache read's `get` on a hit and the URL build on a miss. -/
theorem hasAccount_pre_ne_nil (env : Env) (f : Flow) (e : Entitlement) :
    (hasAssociatedUserAccount_ env f e).2.1 ≠ [] := by
  unfold hasAssociatedUserAccount_
  split
  next m t1 heq =>
    obtain ⟨v, hv⟩ := getStorageData_ok env HAS_PUBLISHER_ACCOUNT e
    rw [heq] at hv
    simp at hv
  next v t1 heq =>
    split
    next hne =>
      have h1 : (getStorageData_ env HAS_PUBLISHER_ACCOUNT e).1 = Except.ok v := by rw [heq]
      have h2 := getStorageData_hit_trace env HAS_PUBLISHER_ACCOUNT e v hne h1
      rw [heq] at h2
      simp at h2 ⊢
      simp [h2]
    next hne =>
      repeat any_goals split
      all_goals simp

/-- The pre-settlement trace of `run` is never empty: `run` performs no
feature-gate check and always reaches either the rejection-flag read (storage
available) or the URL build of the existence check (storage absent). -/
theorem run_pre_ne_nil (env : Env) (f : Flow) (e : Entitlement) :
    (run env f e).pre ≠ [] := by
  unfold run
  split
  next m t1 heq =>
    obtain ⟨v, hv⟩ := getStorageData_ok env HAS_REJECTED_ACCOUNT_CREATION e
    rw [heq] at hv
    simp at hv
  next v t1 heq =>
    have hp2 := hasAccount_pre_ne_nil env f e
    split
    next htr =>
      have hne : v ≠ JsVal.undef := by
        intro hu
        subst hu
        simp [truthy] at htr
      have h1 : (getStorageData_ env HAS_REJECTED_ACCOUNT_CREATION e).1 = Except.ok v := by
        rw [heq]
      have h2 := getStorageData_hit_trace env HAS_REJECTED_ACCOUNT_CREATION e v hne h1
      rw [heq] at h2
      simp at h2 ⊢
      simp [h2]
    next htr =>
      split
      next m p2 a2 heq2 =>
        rw [heq2] at hp2
        simp at hp2 ⊢
        simp [hp2]
      next jr p2 a2 heq2 =>
        rw [heq2] at hp2
        simp at hp2
        repeat any_goals split
        all_goals simp_all

/-- Shape of `run` on the consent path: with no cached rejection and an
existence result whose `found` is falsy, `run` resolves `ok` with the
consent invocation as last pre-settlement event, and the consent
continuation (navigation on acceptance, rejection write on refusal) detached. -/
theorem run_consent_path (env : Env) (f : Flow) (e : Entitlement) (v : JsVal)
    (jr : JsonResult) (b : Bool)
    (h1 : (getStorageData_ env HAS_REJECTED_ACCOUNT_CREATION e).1 = Except.ok v)
    (h2 : truthy v = false)
    (h3 : (hasAssociatedUserAccount_ env f e).1 = Except.ok jr)
    (h4 : truthy jr.found = false)
    (hc : env.consent = Except.ok b) :
    run env f e =
      ⟨Except.ok (),
        (getStorageData_ env HAS_REJECTED_ACCOUNT_CREATION e).2 ++
          (hasAssociatedUserAccount_ env f e).2.1 ++ [Event.consent],
        (hasAssociatedUserAccount_ env f e).2.2 ++
          (if b then [Event.navigate f.accountCreationRedirectUrl]
           else (setStorageData_ env HAS_REJECTED_ACCOUNT_CREATION e (JsVal.bool true)).2)⟩ := by
  unfold run
  split
  next m t1 heq =>
    rw [heq] at h1
    simp at h1
  next w t1 heq =>
    have hw : w = v := by rw [heq] at h1; simpa using h1
    subst hw
    rw [if_neg (by simp [h2]), heq]
    split
    next m p2 a2 heq2 =>
      rw [heq2] at h3
      simp at h3
    next jr' p2 a2 heq2 =>
      have hjr : jr' = jr := by rw [heq2] at h3; simpa using h3
      subst hjr
      rw [if_neg (by simp [h4]), hc, heq2]
      cases b
      · simp
      · simp

/-! Claim theorems. -/

/-- C3: for every entitlement, if the cache read under the `HAS_PUBLISHER_ACCOUNT`
purpose returns the value `true`, the existence check resolves to
`{found: true}` without invoking the network collaborator: no URL is built
and no request is issued. -/
theorem C3_cache_short_circuit (env : Env) (f : Flow) (e : Entitlement)
    (h : (getStorageData_ env HAS_PUBLISHER_ACCOUNT e).1 = Except.ok (JsVal.bool true)) :
    (hasAssociatedUserAccount_ env f e).1 = Except.ok ⟨JsVal.bool true⟩ ∧
    (∀ u, Event.buildUrl u ∉
        (hasAssociatedUserAccount_ env f e).2.1 ++ (hasAssociatedUserAccount_ env f e).2.2) ∧
    (∀ u b, Event.fetch u b ∉
        (hasAssociatedUserAccount_ env f e).2.1 ++ (hasAssociatedUserAccount_ env f e).2.2) := by
  have hc := hasAccount_cached env f e (JsVal.bool true) (by simp) h
  refine ⟨by rw [hc], ?_, ?_⟩
  · intro u hu
    rw [hc] at hu
    simp only [List.append_nil] at hu
    have := getStorageData_events env HAS_PUBLISHER_ACCOUNT e _ hu
    simp at this
  · intro u b hu
    rw [hc] at hu
    simp only [List.append_nil] at hu
    have := getStorageData_events env HAS_PUBLISHER_ACCOUNT e _ hu
    simp at this

/-- Witness for C3 at a concrete environment caching `true` for the
publisher-account purpose. -/
theorem C3_cache_short_circuit_witness :
    (hasAssociatedUserAccount_ envCachedAccount flowConfigured entA).1 =
      Except.ok ⟨JsVal.bool true⟩ :=
  (C3_cache_short_circuit envCachedAccount flowConfigured entA (by decide)).1

/-- C4: for every entitlement, if the cache holds `true` under the
`HAS_REJECTED_ACCOUNT_CREATION` purpose, `run` resolves after the single
rejection-flag read: no existence check, no consent, no navigation and no
cache write occur. -/
theorem C4_rejection_memory (env : Env) (f : Flow) (e : Entitlement) (s : Store)
    (hs : env.storage = Except.ok s)
    (hg : s.get (getStorageKey_ HAS_REJECTED_ACCOUNT_CREATION e) =
      Except.ok (JsVal.bool true)) :
    run env f e =
      ⟨Except.ok (), [Event.storageGet (getStorageKey_ HAS_REJECTED_ACCOUNT_CREATION e)],
        []⟩ := by
  simp [run, getStorageData_, hs, hg, truthy]

/-- Witness for C4 at a concrete environment caching a prior refusal. -/
theorem C4_rejection_memory_witness :
    run envCachedRejection flowConfigured entA =
      ⟨Except.ok (),
        [Event.storageGet (getStorageKey_ HAS_REJECTED_ACCOUNT_CREATION entA)], []⟩ :=
  C4_rejection_memory envCachedRejection flowConfigured entA storeRejected rfl (by decide)

/-- C5: the claim that distinct entitlement contents never derive the same
cache key is false on the code: two entitlements with different canonical
serializations derive the same key, because the derived key never depends on
the entitlement (the digested buffer is empty and the digest is replaced by
the string tag of its `ArrayBuffer`). -/
theorem C5_key_collision :
    entA.jsonStr ≠ entB.jsonStr ∧
    getStorageKey_ HAS_PUBLISHER_ACCOUNT entA = getStorageKey_ HAS_PUBLISHER_ACCOUNT entB := by
  exact ⟨by decide, rfl⟩

/-- C6: evaluation of key derivation at a concrete entitlement: the result is
`purpose + "_" + btoa("[object ArrayBuffer]")` — a constant suffix, not a
digest of the canonicalized entitlement — while different purposes still
yield different keys. -/
theorem C6_key_shape :
    getStorageKey_ HAS_REJECTED_ACCOUNT_CREATION entC =
      "user-rejected-account-creation-request_W29iamVjdCBBcnJheUJ1ZmZlcl0=" ∧
    btoa arrayBufferStringTag = "W29iamVjdCBBcnJheUJ1ZmZlcl0=" ∧
    getStorageKey_ HAS_PUBLISHER_ACCOUNT entC ≠
      getStorageKey_ HAS_REJECTED_ACCOUNT_CREATION entC := by
  exact ⟨by decide, by decide, by decide⟩

/-- C7: the cache read never rejects, for every purpose and entitlement: it
settles `ok` in every environment, and resolves to `undefined` when the
storage promise rejects, when `get` rejects, and when the key is absent. -/
theorem C7_read_never_rejects (env : Env) (p : String) (e : Entitlement) :
    (∃ v, (getStorageData_ env p e).1 = Except.ok v) ∧
    (∀ m, env.storage = Except.error m →
      (getStorageData_ env p e).1 = Except.ok JsVal.undef) ∧
    (∀ s m, env.storage = Except.ok s →
      s.get (getStorageKey_ p e) = Except.error m →
      (getStorageData_ env p e).1 = Except.ok JsVal.undef) ∧
    (∀ s, env.storage = Except.ok s →
      s.get (getStorageKey_ p e) = Except.ok JsVal.undef →
      (getStorageData_ env p e).1 = Except.ok JsVal.undef) := by
  refine ⟨getStorageData_ok env p e, ?_, ?_, ?_⟩
  · intro m hm
    simp [getStorageData_, hm]
  · intro s m hs hg
    simp [getStorageData_, hs, hg]
  · intro s hs hg
    simp [getStorageData_, hs, hg]

/-- Witness for C7 at a concrete environment whose storage promise rejects. -/
theorem C7_read_never_rejects_witness :
    (getStorageData_ envNoStorage HAS_PUBLISHER_ACCOUNT entA).1 = Except.ok JsVal.undef :=
  (C7_read_never_rejects envNoStorage HAS_PUBLISHER_ACCOUNT entA).2.1 "no storage" rfl

/-- C1 counterexample: with both constructor URLs empty the feature gate is
disabled, yet `run` still invokes a collaborator — the storage read of the
rejection flag appears in its pre-settlement trace — refuting "resolves
immediately and invokes no collaborator at all". -/
theorem C1_counterexample :
    isDeferredAccountCreationEnabled flowUnconfigured = false ∧
    Event.storageGet (getStorageKey_ HAS_REJECTED_ACCOUNT_CREATION entA) ∈
      (run envStorageOnly flowUnconfigured entA).pre := by
  decide

/-- C1 amended: a missing URL makes `isDeferredAccountCreationEnabled()`
falsy, but `run` itself evaluates no feature gate: its pre-settlement trace
is never empty, so collaborators are invoked regardless of the missing
configuration. -/
theorem C1_no_feature_gate (h r : String) (env : Env) (e : Entitlement)
    (hmiss : h = "" ∨ r = "") :
    isDeferredAccountCreationEnabled (init h r) = false ∧
    (run env (init h r) e).pre ≠ [] := by
  constructor
  · rcases hmiss with hm | hm <;> subst hm <;>
      simp [init, orNull, isDeferredAccountCreationEnabled]
  · exact run_pre_ne_nil env (init h r) e

/-- Witness for the amended C1 at a concrete unconfigured flow. -/
theorem C1_no_feature_gate_witness :
    isDeferredAccountCreationEnabled (init "" "https://pub.example/create") = false ∧
    (run envStorageOnly (init "" "https://pub.example/create") entB).pre ≠ [] :=
  C1_no_feature_gate "" "https://pub.example/create" envStorageOnly entB (Or.inl rfl)

/-- C2: with no cached rejection, if the existence check rejects then `run`
rejects with the same error, the consent collaborator is never invoked, and
nothing is written to the cache. -/
theorem C2_fail_closed (env : Env) (f : Flow) (e : Entitlement) (v : JsVal) (m : String)
    (h1 : (getStorageData_ env HAS_REJECTED_ACCOUNT_CREATION e).1 = Except.ok v)
    (h2 : truthy v = false)
    (h3 : (hasAssociatedUserAccount_ env f e).1 = Except.error m) :
    (run env f e).result = Except.error m ∧
    Event.consent ∉ (run env f e).pre ++ (run env f e).detached ∧
    (∀ k w, Event.storageSet k w ∉ (run env f e).pre ++ (run env f e).detached) := by
  have hdet := hasAccount_error_detached env f e m h3
  have hrun : run env f e =
      ⟨Except.error m,
        (getStorageData_ env HAS_REJECTED_ACCOUNT_CREATION e).2 ++
          (hasAssociatedUserAccount_ env f e).2.1, []⟩ := by
    unfold run
    split
    next m' t1 heq =>
      rw [heq] at h1
      simp at h1
    next w t1 heq =>
      have hw : w = v := by rw [heq] at h1; simpa using h1
      subst hw
      rw [if_neg (by simp [h2]), heq]
      split
      next m' p2 a2 heq2 =>
        have hm : m' = m := by rw [heq2] at h3; simpa using h3
        subst hm
        rw [heq2] at hdet
        rw [heq2]
        simpa using hdet
      next jr p2 a2 heq2 =>
        rw [heq2] at h3
        simp at h3
  rw [hrun]
  refine ⟨rfl, ?_, ?_⟩
  · intro hc
    simp only [List.append_nil, List.mem_append] at hc
    rcases hc with hc | hc
    · have := getStorageData_events env HAS_REJECTED_ACCOUNT_CREATION e _ hc
      simp at this
    · rcases hasAccount_pre_events env f e _ hc with hx | hx | hx
      · simp at hx
      · simp at hx
      · obtain ⟨u, hu⟩ := hx
        simp at hu
  · intro k w hc
    simp only [List.append_nil, List.mem_append] at hc
    rcases hc with hc | hc
    · have := getStorageData_events env HAS_REJECTED_ACCOUNT_CREATION e _ hc
      simp at this
    · rcases hasAccount_pre_events env f e _ hc with hx | hx | hx
      · simp at hx
      · simp at hx
      · obtain ⟨u, hu⟩ := hx
        simp at hu

/-- Witness for C2 at a concrete environment with empty storage and a
failing network call. -/
theorem C2_fail_closed_witness :
    (run envFetchFails flowConfigured entA).result = Except.error "network down" :=
  (C2_fail_closed envFetchFails flowConfigured entA JsVal.undef "network down"
    (by decide) rfl (by decide)).1

/-- C8 counterexample: when the storage promise itself rejects, the cache
write rejects with that error instead of resolving, refuting "the write
resolves normally ... when the durable store itself is absent". -/
theorem C8_counterexample :
    (setStorageData_ envNoStorage HAS_REJECTED_ACCOUNT_CREATION entA (JsVal.bool true)).1 =
      Except.error "no storage" := by
  decide

/-- C8 amended: the cache write resolves whenever the storage promise
resolves — a rejection of the `set` call is swallowed — but it rejects when
the storage promise itself rejects (that rejection is awaited by no flow
path, so it still never reaches `run`'s caller). -/
theorem C8_write_resolves_iff_storage (env : Env) (p : String) (e : Entitlement)
    (value : JsVal) :
    (∀ s, env.storage = Except.ok s →
      (setStorageData_ env p e value).1 = Except.ok ()) ∧
    (∀ m, env.storage = Except.error m →
      (setStorageData_ env p e value).1 = Except.error m) := by
  constructor
  · intro s hs
    rcases hss : s.set (getStorageKey_ p e) value with m | u <;>
      simp [setStorageData_, hs, hss]
  · intro m hm
    simp [setStorageData_, hm]

/-- Witness for the amended C8: a failing `set` is swallowed, a rejected
storage promise is not. -/
theorem C8_write_resolves_iff_storage_witness :
    (setStorageData_ envBrokenStore HAS_PUBLISHER_ACCOUNT entB (JsVal.bool false)).1 =
      Except.ok () ∧
    (setStorageData_ envNoStorage HAS_PUBLISHER_ACCOUNT entB (JsVal.bool false)).1 =
      Except.error "no storage" :=
  ⟨(C8_write_resolves_iff_storage envBrokenStore HAS_PUBLISHER_ACCOUNT entB
      (JsVal.bool false)).1 storeBroken rfl,
    (C8_write_resolves_iff_storage envNoStorage HAS_PUBLISHER_ACCOUNT entB
      (JsVal.bool false)).2 "no storage" rfl⟩

/-- C9: on the consent path (no cached rejection, existence resolved with a
falsy `found`, storage available), a declined consent records `true` under
the rejection key and never navigates, while an accepted consent navigates
exactly once to the configured redirect URL and never writes under the
rejection key. -/
theorem C9_consent_outcomes (env : Env) (f : Flow) (e : Entitlement) (s : Store)
    (v : JsVal) (jr : JsonResult)
    (hs : env.storage = Except.ok s)
    (h1 : (getStorageData_ env HAS_REJECTED_ACCOUNT_CREATION e).1 = Except.ok v)
    (h2 : truthy v = false)
    (h3 : (hasAssociatedUserAccount_ env f e).1 = Except.ok jr)
    (h4 : truthy jr.found = false) :
    (env.consent = Except.ok false →
      Event.storageSet (getStorageKey_ HAS_REJECTED_ACCOUNT_CREATION e) (JsVal.bool true) ∈
        (run env f e).detached ∧
      ∀ u, Event.navigate u ∉ (run env f e).pre ++ (run env f e).detached) ∧
    (env.consent = Except.ok true →
      ((run env f e).pre ++ (run env f e).detached).count
          (Event.navigate f.accountCreationRedirectUrl) = 1 ∧
      ∀ w, Event.storageSet (getStorageKey_ HAS_REJECTED_ACCOUNT_CREATION e) w ∉
        (run env f e).pre ++ (run env f e).detached) := by
  have hnav1 : ∀ u, Event.navigate u ∉ (getStorageData_ env HAS_REJECTED_ACCOUNT_CREATION e).2 := by
    intro u hx
    have := getStorageData_events env HAS_REJECTED_ACCOUNT_CREATION e _ hx
    simp at this
  have hnav2 : ∀ u, Event.navigate u ∉ (hasAssociatedUserAccount_ env f e).2.1 := by
    intro u hx
    rcases hasAccount_pre_events env f e _ hx with hy | hy | hy
    · simp at hy
    · simp at hy
    · obtain ⟨u', hu'⟩ := hy
      simp at hu'
  have hnav3 : ∀ u, Event.navigate u ∉ (hasAssociatedUserAccount_ env f e).2.2 := by
    intro u hx
    obtain ⟨w, hw⟩ := hasAccount_detached_events env f e _ hx
    simp at hw
  have hset1 : ∀ w, Event.storageSet (getStorageKey_ HAS_REJECTED_ACCOUNT_CREATION e) w ∉
      (getStorageData_ env HAS_REJECTED_ACCOUNT_CREATION e).2 := by
    intro w hx
    have := getStorageData_events env HAS_REJECTED_ACCOUNT_CREATION e _ hx
    simp at this
  have hset2 : ∀ w, Event.storageSet (getStorageKey_ HAS_REJECTED_ACCOUNT_CREATION e) w ∉
      (hasAssociatedUserAccount_ env f e).2.1 := by
    intro w hx
    rcases hasAccount_pre_events env f e _ hx with hy | hy | hy
    · simp at hy
    · simp at hy
    · obtain ⟨u', hu'⟩ := hy
      simp at hu'
  have hset3 : ∀ w, Event.storageSet (getStorageKey_ HAS_REJECTED_ACCOUNT_CREATION e) w ∉
      (hasAssociatedUserAccount_ env f e).2.2 := by
    intro w hx
    obtain ⟨w', hw'⟩ := hasAccount_detached_events env f e _ hx
    have hk : getStorageKey_ HAS_REJECTED_ACCOUNT_CREATION e =
        getStorageKey_ HAS_PUBLISHER_ACCOUNT e := by
      injection hw'
    exact storageKeys_ne e e hk.symm
  constructor
  · intro hc
    have hrun := run_consent_path env f e v jr false h1 h2 h3 h4 hc
    have hsetTr : (setStorageData_ env HAS_REJECTED_ACCOUNT_CREATION e (JsVal.bool true)).2 =
        [Event.storageSet (getStorageKey_ HAS_REJECTED_ACCOUNT_CREATION e) (JsVal.bool true)] := by
      rcases hss : s.set (getStorageKey_ HAS_REJECTED_ACCOUNT_CREATION e) (JsVal.bool true)
          with m | u <;> simp [setStorageData_, hs, hss]
    refine ⟨?_, ?_⟩
    · rw [hrun]
      simp [hsetTr]
    · intro u
      rw [hrun]
      simp [hsetTr, List.mem_append, hnav1 u, hnav2 u, hnav3 u]
  · intro hc
    have hrun := run_consent_path env f e v jr true h1 h2 h3 h4 hc
    refine ⟨?_, ?_⟩
    · rw [hrun]
      simp [List.count_append, List.count_eq_zero.mpr (hnav1 _), List.count_eq_zero.mpr (hnav2 _),
        List.count_eq_zero.mpr (hnav3 _), List.count_cons, List.count_nil]
    · intro w
      rw [hrun]
      simp [List.mem_append, hset1 w, hset2 w, hset3 w]

/-- Witness for C9 at concrete declined and accepted environments. -/
theorem C9_consent_outcomes_witness :
    Event.storageSet (getStorageKey_ HAS_REJECTED_ACCOUNT_CREATION entA) (JsVal.bool true) ∈
      (run envConsentDeclined flowConfigured entA).detached ∧
    ((run envConsentAccepted flowConfigured entA).pre ++
        (run envConsentAccepted flowConfigured entA).detached).count
      (Event.navigate flowConfigured.accountCreationRedirectUrl) = 1 :=
  ⟨((C9_consent_outcomes envConsentDeclined flowConfigured entA storeEmpty JsVal.undef
      ⟨JsVal.bool false⟩ rfl (by decide) rfl (by decide) rfl).1 rfl).1,
    ((C9_consent_outcomes envConsentAccepted flowConfigured entA storeEmpty JsVal.undef
      ⟨JsVal.bool false⟩ rfl (by decide) rfl (by decide) rfl).2 rfl).1⟩

/-- C10 counterexample: at a concrete accepted-consent environment `run`
resolves `ok` while the navigation to the redirect URL is only in the
detached (not awaited) event list, never among the pre-settlement events —
refuting "the promise resolves only after the terminal step has been
carried out". -/
theorem C10_counterexample :
    (run envConsentAccepted flowConfigured entB).result = Except.ok () ∧
    Event.navigate (some "https://pub.example/create") ∈
      (run envConsentAccepted flowConfigured entB).detached ∧
    Event.navigate (some "https://pub.example/create") ∉
      (run envConsentAccepted flowConfigured entB).pre := by
  decide

/-- C10 amended: the chain is sequential up to the consent prompt, but the
consent continuation is detached: on the consent path `run` resolves `ok`
with the consent invocation among its pre-settlement events, while neither
the navigation nor the rejection write is sequenced before settlement. -/
theorem C10_detached_consent_chain (env : Env) (f : Flow) (e : Entitlement)
    (v : JsVal) (jr : JsonResult) (b : Bool)
    (h1 : (getStorageData_ env HAS_REJECTED_ACCOUNT_CREATION e).1 = Except.ok v)
    (h2 : truthy v = false)
    (h3 : (hasAssociatedUserAccount_ env f e).1 = Except.ok jr)
    (h4 : truthy jr.found = false)
    (hc : env.consent = Except.ok b) :
    (run env f e).result = Except.ok () ∧
    Event.consent ∈ (run env f e).pre ∧
    (∀ u, Event.navigate u ∉ (run env f e).pre) ∧
    (∀ w, Event.storageSet (getStorageKey_ HAS_REJECTED_ACCOUNT_CREATION e) w ∉
      (run env f e).pre) := by
  have hrun := run_consent_path env f e v jr b h1 h2 h3 h4 hc
  refine ⟨by rw [hrun], by rw [hrun]; simp, ?_, ?_⟩
  · intro u
    rw [hrun]
    simp only [List.mem_append, List.mem_singleton]
    rintro ((hx | hx) | hx)
    · have := getStorageData_events env HAS_REJECTED_ACCOUNT_CREATION e _ hx
      simp at this
    · rcases hasAccount_pre_events env f e _ hx with hy | hy | hy
      · simp at hy
      · simp at hy
      · obtain ⟨u', hu'⟩ := hy
        simp at hu'
    · simp at hx
  · intro w
    rw [hrun]
    simp only [List.mem_append, List.mem_singleton]
    rintro ((hx | hx) | hx)
    · have := getStorageData_events env HAS_REJECTED_ACCOUNT_CREATION e _ hx
      simp at this
    · rcases hasAccount_pre_events env f e _ hx with hy | hy | hy
      · simp at hy
      · simp at hy
      · obtain ⟨u', hu'⟩ := hy
        simp at hu'
    · simp at hx

/-- Witness for the amended C10 at the concrete accepted-consent
environment. -/
theorem C10_detached_consent_chain_witness :
    (run envConsentAccepted flowConfigured entA).result = Except.ok () ∧
    Event.consent ∈ (run envConsentAccepted flowConfigured entA).pre :=
  ⟨(C10_detached_consent_chain envConsentAccepted flowConfigured entA JsVal.undef
      ⟨JsVal.bool false⟩ true (by decide) rfl (by decide) rfl rfl).1,
    (C10_detached_consent_chain envConsentAccepted flowConfigured entA JsVal.undef
      ⟨JsVal.bool false⟩ true (by decide) rfl (by decide) rfl rfl).2.1⟩

end AmpDeferredAccount
